import Mathlib

/-!
Shallow embedding of the devconnect posts API:
`src/middleware/auth.js` (the token-verifier middleware) and
`src/routes/api/posts.js` (the eight post/like/comment route handlers).

The document store (Mongoose/MongoDB) and the JWT library are external
collaborators; they are modelled by explicit state passing over a `Store`
of `Post` and `User` documents and by an abstract `Credential` type.
Handlers are functions from the pre-state to a `Response` paired with the
post-state; a handler that never calls `save()` returns the store unchanged.
-/

namespace DevConnect

/-- The identity claim embedded in a JWT payload: `decoded.user` in
`middleware/auth.js`, carrying the user id used by every handler as
`req.user.id`. -/
structure Identity where
  id : String
deriving Repr, DecidableEq

/-- A credential presented in the `x-auth-token` header. `signed u s` stands
for a well-formed token embedding identity claim `u` and signed with secret
`s`; `malformed` stands for any string that cannot be verified at all
(garbage, expired, truncated). -/
inductive Credential where
  | signed (user : Identity) (secret : String)
  | malformed (raw : String)
deriving Repr, DecidableEq

/-- Model of the external `jwt.verify(token, secret)`: verification succeeds
exactly for a token signed with the process-wide secret, and yields the
embedded identity claim; every other credential (wrong secret, malformed,
expired) fails. -/
def jwtVerify (secret : String) : Credential → Option Identity
  | .signed u s => if s = secret then some u else none
  | .malformed _ => none

/-- One element of `post.likes`: a subdocument `{ user: <id> }`
(`posts.js` stores likes via `post.likes.unshift({ user: req.user.id })`). -/
structure Like where
  user : String
deriving Repr, DecidableEq

/-- One element of `post.comments`: subdocument with its own id and the
denormalized author snapshot, as built in the add-comment handler. -/
structure Comment where
  id : String
  text : String
  name : String
  avatar : String
  user : String
deriving Repr, DecidableEq

/-- A `Post` document: author user id plus denormalized `name`/`avatar`,
the text, the embedded like and comment sequences, and the creation
timestamp used by `.sort({ date: -1 })`. -/
structure Post where
  id : String
  text : String
  name : String
  avatar : String
  user : String
  likes : List Like
  comments : List Comment
  date : Int
deriving Repr, DecidableEq

/-- A `User` document as read by `User.findById(req.user.id)`: only the
fields the handlers use (`name`, `avatar`). -/
structure User where
  id : String
  name : String
  avatar : String
deriving Repr, DecidableEq

/-- A JSON response body, one constructor per shape the handlers emit. -/
inductive Body where
  | post (p : Post)
  | posts (ps : List Post)
  | likes (ls : List Like)
  | comments (cs : List Comment)
  | msg (m : String)
  | errors (es : List String)
  | text (t : String)
deriving Repr, DecidableEq

/-- An HTTP response: status code and body. -/
structure Response where
  status : Nat
  body : Body
deriving Repr, DecidableEq

/-- `res.status(500).send('Server Error')`, the shared catch-all. -/
def serverError : Response := ⟨500, .text "Server Error"⟩

/-- Outcome of the auth middleware: either the request is rejected with a
response, or the identity is attached to the request context and control
passes to the handler. -/
inductive AuthOutcome where
  | denied (r : Response)
  | authed (user : Identity)
deriving Repr, DecidableEq

/-- `middleware/auth.js`: read the `x-auth-token` header; missing header is
rejected 401 (`' no token authrization denied'`); a token that fails
`jwt.verify` is rejected 401 (`'token is not found'`); otherwise
`req.user = decoded.user` and `next()` is called. -/
def auth (secret : String) (header : Option Credential) : AuthOutcome :=
  match header with
  | none => .denied ⟨401, .msg " no token authrization denied"⟩
  | some token =>
    match jwtVerify secret token with
    | some u => .authed u
    | none => .denied ⟨401, .msg "token is not found"⟩

/-- Result of `Model.findById(id)` as the handlers observe it: a malformed
id makes the awaited query throw a `CastError` whose `kind` is
`'ObjectId'`; a well-formed id matching no document resolves to `null`. -/
inductive FindResult (α : Type) where
  | castError
  | notFound
  | found (a : α)
deriving Repr, DecidableEq

/-- A well-formed MongoDB ObjectId literal: 24 hexadecimal characters
(lower case, as Mongoose serializes them). -/
def validObjectId (s : String) : Bool :=
  s.length == 24 && s.toList.all fun c => c.isDigit || ('a' ≤ c && c ≤ 'f')

/-- Model of `Model.findById(id)` against a collection, keyed by `key`:
throws `CastError`/`ObjectId` on a malformed id, else resolves to the first
document with that id or to `null`. -/
def findById (key : α → String) (docs : List α) (id : String) : FindResult α :=
  if validObjectId id then
    match docs.find? (fun d => key d == id) with
    | some d => .found d
    | none => .notFound
  else .castError

/-- The document store visible to the routes: the `Post` collection and the
read-only `User` collection. -/
structure Store where
  posts : List Post
  users : List User
deriving Repr, DecidableEq

/-- `post.save()` on a fetched-and-mutated document: the stored document
with the same id is replaced by the mutated copy. -/
def savePost (s : Store) (p : Post) : Store :=
  { s with posts := s.posts.map fun q => if q.id == p.id then p else q }

/-- JavaScript `Array.prototype.indexOf` on a list of strings: index of the
first occurrence, or `-1` when absent. -/
def jsIndexOf (l : List String) (x : String) : Int :=
  match l.findIdx? (fun y => y == x) with
  | some i => (i : Int)
  | none => -1

/-- JavaScript `arr.splice(start, 1)`: a negative `start` counts from the
end of the array (clamped at 0), and one element is removed at the
resulting position (none when the position is past the end). -/
def jsSplice1 (l : List α) (start : Int) : List α :=
  let s : Nat := if start < 0 then ((l.length : Int) + start).toNat else start.toNat
  l.take s ++ l.drop (s + 1)

/-- `POST api/posts` (create): after the express-validator check that
`text` is non-empty, look up the author's `User` document, build a new
`Post` with the denormalized author snapshot, save it, and respond with
the post. Any thrown error (cast error, or `user.name` on a `null`
user) reaches the catch and becomes a 500. `freshId` and `now` stand for
the ObjectId and timestamp the store generates for the new document. -/
def createPostHandler (store : Store) (uid text freshId : String) (now : Int) :
    Response × Store :=
  if text.isEmpty then
    (⟨400, .errors ["Text is required"]⟩, store)
  else
    match findById User.id store.users uid with
    | .castError => (serverError, store)
    | .notFound => (serverError, store)
    | .found user =>
      let newPost : Post :=
        { id := freshId, text := text, name := user.name, avatar := user.avatar,
          user := uid, likes := [], comments := [], date := now }
      (⟨200, .post newPost⟩, { store with posts := store.posts ++ [newPost] })

/-- `GET api/posts`: `Post.find().sort({ date: -1 })` — all posts, newest
first. -/
def getPostsHandler (store : Store) : Response × Store :=
  (⟨200, .posts (store.posts.mergeSort fun a b => b.date ≤ a.date)⟩, store)

/-- `GET api/posts/:id`: fetch by id; `null` is a 404, and the catch maps a
`CastError` with `kind === 'ObjectId'` to the same 404. -/
def getPostHandler (store : Store) (pid : String) : Response × Store :=
  match findById Post.id store.posts pid with
  | .castError => (⟨404, .msg "post not found"⟩, store)
  | .notFound => (⟨404, .msg "post not found"⟩, store)
  | .found post => (⟨200, .post post⟩, store)

/-- `DELETE api/posts/:id`: fetch by id (404 on `null`, 404 on
`CastError`/`ObjectId` in the catch); reject 401 unless
`post.user.toString() === req.user.id`; otherwise `post.remove()`. -/
def deletePostHandler (store : Store) (uid pid : String) : Response × Store :=
  match findById Post.id store.posts pid with
  | .castError => (⟨404, .msg "post not found"⟩, store)
  | .notFound => (⟨404, .msg "post not found"⟩, store)
  | .found post =>
    if post.user ≠ uid then
      (⟨401, .msg "User not autherized"⟩, store)
    else
      (⟨200, .msg "post removed"⟩,
        { store with posts := store.posts.eraseP fun q => q.id == post.id })

/-- `PUT api/posts/like/:id`: no `null` check — a missing post throws on
`post.likes` and a malformed id throws a `CastError`, and this handler's
catch returns 500 unconditionally. If a like by `req.user.id` is already
present (filter length > 0) reject 400; otherwise unshift
`{ user: req.user.id }` and save. -/
def likePostHandler (store : Store) (uid pid : String) : Response × Store :=
  match findById Post.id store.posts pid with
  | .castError => (serverError, store)
  | .notFound => (serverError, store)
  | .found post =>
    if 0 < (post.likes.filter fun like => like.user == uid).length then
      (⟨400, .msg "post already liked"⟩, store)
    else
      let post' := { post with likes := ⟨uid⟩ :: post.likes }
      (⟨200, .likes post'.likes⟩, savePost store post')

/-- `PUT api/posts/unlike/:id`: same fetch behaviour as like (500 on a
missing post or malformed id). The source's guard is
`(post.likes.filter(...).length = 0)` — an assignment, not a comparison:
its value is `0`, which is falsy, so the "has not yet been liked" branch
is unreachable and control always falls through to
`splice(indexOf(req.user.id), 1)`, where `indexOf` is `-1` when the user
never liked the post. -/
def unlikePostHandler (store : Store) (uid pid : String) : Response × Store :=
  match findById Post.id store.posts pid with
  | .castError => (serverError, store)
  | .notFound => (serverError, store)
  | .found post =>
    let assigned : Nat := 0
    if assigned ≠ 0 then
      (⟨400, .msg "post has not yet been liked"⟩, store)
    else
      let removeIndex := jsIndexOf (post.likes.map Like.user) uid
      let post' := { post with likes := jsSplice1 post.likes removeIndex }
      (⟨200, .likes post'.likes⟩, savePost store post')

/-- `POST api/posts/comment/:id`: validator check on `text`; look up the
author's `User` document and the post; any `null`/`CastError` on either
lookup ends in the unconditional 500 catch; otherwise unshift the new
comment and save. `freshId` stands for the subdocument id the store
generates. -/
def addCommentHandler (store : Store) (uid pid text freshId : String) :
    Response × Store :=
  if text.isEmpty then
    (⟨400, .errors ["Text is required"]⟩, store)
  else
    match findById User.id store.users uid, findById Post.id store.posts pid with
    | .found user, .found post =>
      let newComment : Comment :=
        { id := freshId, text := text, name := user.name, avatar := user.avatar,
          user := uid }
      let post' := { post with comments := newComment :: post.comments }
      (⟨200, .comments post'.comments⟩, savePost store post')
    | _, _ => (serverError, store)

/-- `DELETE api/posts/comment/:id/:comment_id`: fetch the post (a missing
post or malformed id throws into the unconditional 500 catch); find the
comment by `comment.id === req.params.comment_id` (404 when absent);
reject 401 unless `comment.user.toString() === req.user.id`. The removal
index is then computed from `comments.map(c => c.user).indexOf(req.user.id)`
— the requester's first comment, not the target comment — and the handler
responds with the spliced copy without ever calling `post.save()`. -/
def deleteCommentHandler (store : Store) (uid pid commentId : String) :
    Response × Store :=
  match findById Post.id store.posts pid with
  | .castError => (serverError, store)
  | .notFound => (serverError, store)
  | .found post =>
    match post.comments.find? (fun c => c.id == commentId) with
    | none => (⟨404, .msg "Comment does not exist"⟩, store)
    | some comment =>
      if comment.user ≠ uid then
        (⟨401, .msg "User not authorized"⟩, store)
      else
        let removeIndex := jsIndexOf (post.comments.map Comment.user) uid
        let comments' := jsSplice1 post.comments removeIndex
        (⟨200, .comments comments'⟩, store)

/-- A routed request to the posts API, with the fresh ids / timestamps the
store would generate passed explicitly. -/
inductive ApiRequest where
  | createPost (text freshId : String) (now : Int)
  | getPosts
  | getPost (pid : String)
  | deletePost (pid : String)
  | likePost (pid : String)
  | unlikePost (pid : String)
  | addComment (pid text freshId : String)
  | deleteComment (pid commentId : String)
deriving Repr, DecidableEq

/-- Route dispatch after successful authentication, `uid = req.user.id`. -/
def dispatch (store : Store) (uid : String) : ApiRequest → Response × Store
  | .createPost text freshId now => createPostHandler store uid text freshId now
  | .getPosts => getPostsHandler store
  | .getPost pid => getPostHandler store pid
  | .deletePost pid => deletePostHandler store uid pid
  | .likePost pid => likePostHandler store uid pid
  | .unlikePost pid => unlikePostHandler store uid pid
  | .addComment pid text freshId => addCommentHandler store uid pid text freshId
  | .deleteComment pid commentId => deleteCommentHandler store uid pid commentId

/-- A full request: every route is wired as `router.<verb>(path, auth, ...)`,
so the auth middleware runs first and a denied request never reaches the
handler (and hence never touches the store). -/
def handle (secret : String) (header : Option Credential) (req : ApiRequest)
    (store : Store) : Response × Store :=
  match auth secret header with
  | .denied r => (r, store)
  | .authed u => dispatch store u.id req

/-! Concrete fixtures used by witnesses and counterexamples. -/

/-- A well-formed post ObjectId. -/
def pidA : String := "aaaaaaaaaaaaaaaaaaaaaaaa"

/-- Bob's user id. -/
def uidB : String := "bbbbbbbbbbbbbbbbbbbbbbbb"

/-- Carol's user id. -/
def uidC : String := "cccccccccccccccccccccccc"

/-- Id of Bob's first comment. -/
def cidOne : String := "111111111111111111111111"

/-- Id of Bob's second comment. -/
def cidTwo : String := "222222222222222222222222"

/-- The two user documents of the fixtures. -/
def sampleUsers : List User := [⟨uidB, "Bob", "b.png"⟩, ⟨uidC, "Carol", "c.png"⟩]

/-- A post authored by Bob that Bob has liked. -/
def likedPost : Post :=
  { id := pidA, text := "hello", name := "Bob", avatar := "b.png",
    user := uidB, likes := [⟨uidB⟩], comments := [], date := 5 }

/-- Store holding `likedPost`. -/
def storeLiked : Store := { posts := [likedPost], users := sampleUsers }

/-- Bob's first comment. -/
def commentOne : Comment := ⟨cidOne, "first", "Bob", "b.png", uidB⟩

/-- Bob's second comment. -/
def commentTwo : Comment := ⟨cidTwo, "second", "Bob", "b.png", uidB⟩

/-- A post authored by Bob carrying Bob's two comments and no likes. -/
def commentedPost : Post :=
  { id := pidA, text := "hello", name := "Bob", avatar := "b.png",
    user := uidB, likes := [], comments := [commentOne, commentTwo], date := 5 }

/-- Store holding `commentedPost`. -/
def storeCommented : Store := { posts := [commentedPost], users := sampleUsers }

/-- The like-uniqueness invariant of the data model: at most one `Like` per
user id in a post's like sequence. -/
def likesAtMostOnePerUser (p : Post) : Prop :=
  ∀ v : String, (p.likes.filter fun l => l.user == v).length ≤ 1

/-! Helper lemmas about the store model. -/

/-- A found document satisfies the id predicate. -/
theorem findById_found_id (key : α → String) (docs : List α) (id : String)
    (a : α) (h : findById key docs id = .found a) : key a = id := by
  unfold findById at h
  by_cases hv : validObjectId id
  · rw [if_pos hv] at h
    cases hf : docs.find? (fun d => key d == id) with
    | none => rw [hf] at h; cases h
    | some q =>
      rw [hf] at h
      cases h
      simpa using List.find?_some hf
  · rw [if_neg hv] at h; cases h

/-- A found document is a member of the collection. -/
theorem findById_found_mem (key : α → String) (docs : List α) (id : String)
    (a : α) (h : findById key docs id = .found a) : a ∈ docs := by
  unfold findById at h
  by_cases hv : validObjectId id
  · rw [if_pos hv] at h
    cases hf : docs.find? (fun d => key d == id) with
    | none => rw [hf] at h; cases h
    | some q =>
      rw [hf] at h
      cases h
      exact List.mem_of_find?_eq_some hf
  · rw [if_neg hv] at h; cases h

/-- Replacing every document carrying a given id leaves the first hit of a
`find?` for that id pointing at the replacement. -/
theorem find?_replace (l : List Post) (pid : String) (post post' : Post)
    (h : l.find? (fun d => d.id == pid) = some post)
    (hid : post'.id = pid) :
    (l.map fun q => if q.id == post'.id then post' else q).find?
      (fun d => d.id == pid) = some post' := by
  induction l with
  | nil => simp at h
  | cons a l ih =>
    by_cases ha : a.id = pid
    · simp [hid, ha]
    · rw [List.find?_cons_of_neg _ (by simp [ha])] at h
      rw [List.map_cons]
      have hrep : (if a.id == post'.id then post' else a) = a := by
        simp [hid, ha]
      rw [hrep, List.find?_cons_of_neg _ (by simp [ha])]
      exact ih h

/-- After `savePost store post'`, fetching by the saved post's id yields the
saved copy. -/
theorem findById_savePost (store : Store) (pid : String) (post post' : Post)
    (hp : findById Post.id store.posts pid = .found post)
    (hid : post'.id = post.id) :
    findById Post.id (savePost store post').posts pid = .found post' := by
  have hpid : post.id = pid := findById_found_id Post.id store.posts pid post hp
  unfold findById at hp ⊢
  by_cases hv : validObjectId pid
  · rw [if_pos hv] at hp
    cases hf : store.posts.find? (fun d => Post.id d == pid) with
    | none => rw [hf] at hp; cases hp
    | some q =>
      rw [hf] at hp
      cases hp
      rw [if_pos hv]
      simp only [savePost]
      rw [find?_replace store.posts pid post post' hf (by rw [hid, hpid])]
  · rw [if_neg hv] at hp; cases hp

/-! Theorems settling the claims. -/

/-- Claim C1: the Token Verifier rejects a request with no token header with
status 401 (the "no token" case), rejects every credential that fails
verification against the process secret with status 401 (the "invalid
token" case), and for every credential signed with the process secret it
attaches exactly the identity embedded in the credential and passes
control to the matching route handler. -/
theorem C1_token_verifier (secret : String) :
    auth secret none = .denied ⟨401, .msg " no token authrization denied"⟩ ∧
    (∀ c, jwtVerify secret c = none →
      auth secret (some c) = .denied ⟨401, .msg "token is not found"⟩) ∧
    (∀ u, auth secret (some (.signed u secret)) = .authed u) ∧
    (∀ u req store,
      handle secret (some (.signed u secret)) req store = dispatch store u.id req) := by
  refine ⟨rfl, fun c hc => ?_, fun u => ?_, fun u req store => ?_⟩
  · simp [auth, hc]
  · simp [auth, jwtVerify]
  · simp [handle, auth, jwtVerify]

/-- Witness for C1 at concrete inputs. -/
theorem C1_token_verifier_witness :
    auth "secret" (some (.malformed "xyz")) = .denied ⟨401, .msg "token is not found"⟩ ∧
    auth "secret" (some (.signed ⟨"u1"⟩ "secret")) = .authed ⟨"u1"⟩ :=
  ⟨(C1_token_verifier "secret").2.1 (.malformed "xyz") rfl,
   (C1_token_verifier "secret").2.2.1 ⟨"u1"⟩⟩

/-- Claim C2: a delete-post request by an authenticated identity different
(by exact string equality) from the post's author id answers 401 and
leaves the store unchanged, and a delete-comment request targeting a
comment whose author id differs from the requester answers 401 and leaves
the store (hence the post's comments) unchanged. -/
theorem C2_ownership (store : Store) (uid pid cid : String) :
    (∀ post, findById Post.id store.posts pid = .found post → post.user ≠ uid →
      deletePostHandler store uid pid = (⟨401, .msg "User not autherized"⟩, store)) ∧
    (∀ post comment, findById Post.id store.posts pid = .found post →
      post.comments.find? (fun c => c.id == cid) = some comment →
      comment.user ≠ uid →
      deleteCommentHandler store uid pid cid =
        (⟨401, .msg "User not authorized"⟩, store)) := by
  constructor
  · intro post hp hne
    simp [deletePostHandler, hp, hne]
  · intro post comment hp hc hne
    simp [deleteCommentHandler, hp, hc, hne]

/-- Witness for C2: Carol, who is not the author, can delete neither Bob's
post nor Bob's comment. -/
theorem C2_ownership_witness :
    deletePostHandler storeCommented uidC pidA =
      (⟨401, .msg "User not autherized"⟩, storeCommented) ∧
    deleteCommentHandler storeCommented uidC pidA cidOne =
      (⟨401, .msg "User not authorized"⟩, storeCommented) :=
  ⟨(C2_ownership storeCommented uidC pidA cidOne).1 commentedPost
      (by decide) (by decide),
   (C2_ownership storeCommented uidC pidA cidOne).2 commentedPost commentOne
      (by decide) (by decide) (by decide)⟩

/-- Claim C10: the delete-comment handler never calls `post.save()` — for
every store and request the store component of its result is exactly the
input store, so a spliced comment is still present in the stored post on
every subsequent fetch, even after a 200 response. -/
theorem C10_delete_comment_no_persist (store : Store) (uid pid cid : String) :
    (deleteCommentHandler store uid pid cid).2 = store := by
  unfold deleteCommentHandler
  cases h : findById Post.id store.posts pid
  · rfl
  · rfl
  · rename_i post
    cases hc : post.comments.find? (fun c => c.id == cid)
    · simp [hc]
    · rename_i comment
      by_cases hcu : comment.user = uid <;> simp [hc, hcu]

/-- Claim C4 (code bug): Carol has never liked `likedPost`, yet the unlike
handler answers 200 with the likes emptied — the broken guard (an
assignment, always falsy) lets control reach `splice(indexOf, 1)` with
index `-1`, which removes Bob's like, the last element — instead of the
intended 400 "post has not yet been liked" with the likes unchanged. -/
theorem C4_unlike_not_liked_bug :
    (likedPost.likes.filter fun l => l.user == uidC) = [] ∧
    unlikePostHandler storeLiked uidC pidA =
      (⟨200, .likes []⟩,
        { storeLiked with posts := [{ likedPost with likes := [] }] }) := by
  constructor
  · decide
  · decide

/-- Claim C5 (code bug): Bob deletes his second comment (id `cidTwo`), but
the handler computes the removal index from a user-id search, so it
removes Bob's first comment (`commentOne`) and answers with a comments
sequence in which the targeted `commentTwo` is still present. -/
theorem C5_delete_comment_wrong_target_bug :
    commentTwo.id = cidTwo ∧ commentOne.id ≠ cidTwo ∧
    deleteCommentHandler storeCommented uidB pidA cidTwo =
      (⟨200, .comments [commentTwo]⟩, storeCommented) := by
  refine ⟨by decide, by decide, by decide⟩

/-- Claim C6: when the token header is missing or carries a credential that
fails verification, every route answers 401 and the store is untouched,
because the auth middleware rejects the request before the handler runs. -/
theorem C6_auth_gate (secret : String) (header : Option Credential)
    (req : ApiRequest) (store : Store)
    (h : header = none ∨ ∃ c, header = some c ∧ jwtVerify secret c = none) :
    (handle secret header req store).1.status = 401 ∧
    (handle secret header req store).2 = store := by
  rcases h with h | ⟨c, hc, hv⟩
  · subst h; exact ⟨rfl, rfl⟩
  · subst hc; simp [handle, auth, hv]

/-- Witness for C6: a malformed credential on the list-posts route. -/
theorem C6_auth_gate_witness :
    (handle "secret" (some (.malformed "junk")) .getPosts storeLiked).1.status = 401 ∧
    (handle "secret" (some (.malformed "junk")) .getPosts storeLiked).2 = storeLiked :=
  C6_auth_gate "secret" (some (.malformed "junk")) .getPosts storeLiked
    (Or.inr ⟨.malformed "junk", rfl, rfl⟩)

/-- Counterexample to claim C7: on the like endpoint a malformed post id is
answered with a 500 Server Error, not with the 404 the claim requires for
every identifier-taking endpoint. -/
theorem C7_counterexample :
    validObjectId "not-a-valid-objectid" = false ∧
    likePostHandler storeLiked uidB "not-a-valid-objectid" =
      (⟨500, .text "Server Error"⟩, storeLiked) := by
  refine ⟨by decide, by decide⟩

/-- Claim C7 (amended): get-post and delete-post map a malformed id and an
absent post alike to 404 "post not found" — in particular deleting a
non-existent or malformed post id is never a 500 — but like, unlike,
add-comment and delete-comment answer 500 Server Error on a malformed id
(their catch blocks have no ObjectId discrimination). -/
theorem C7_malformed_id (store : Store) (uid pid text cid fid : String)
    (hbad : validObjectId pid = false) :
    getPostHandler store pid = (⟨404, .msg "post not found"⟩, store) ∧
    deletePostHandler store uid pid = (⟨404, .msg "post not found"⟩, store) ∧
    (∀ pid', findById Post.id store.posts pid' = .notFound →
      deletePostHandler store uid pid' = (⟨404, .msg "post not found"⟩, store) ∧
      getPostHandler store pid' = (⟨404, .msg "post not found"⟩, store)) ∧
    likePostHandler store uid pid = (serverError, store) ∧
    unlikePostHandler store uid pid = (serverError, store) ∧
    (text.isEmpty = false →
      addCommentHandler store uid pid text fid = (serverError, store)) ∧
    deleteCommentHandler store uid pid cid = (serverError, store) := by
  have hfind : findById Post.id store.posts pid = .castError := by
    simp [findById, hbad]
  refine ⟨?_, ?_, ?_, ?_, ?_, ?_, ?_⟩
  · simp [getPostHandler, hfind]
  · simp [deletePostHandler, hfind]
  · intro pid' hnf
    exact ⟨by simp [deletePostHandler, hnf], by simp [getPostHandler, hnf]⟩
  · simp [likePostHandler, hfind]
  · simp [unlikePostHandler, hfind]
  · intro htext
    cases hu : findById User.id store.users uid <;>
      simp [addCommentHandler, htext, hfind, hu]
  · simp [deleteCommentHandler, hfind]

/-- Witness for C7 (amended) at a malformed id and an absent well-formed id. -/
theorem C7_malformed_id_witness :
    getPostHandler storeLiked "zzz" = (⟨404, .msg "post not found"⟩, storeLiked) ∧
    deletePostHandler storeLiked uidB "dddddddddddddddddddddddd" =
      (⟨404, .msg "post not found"⟩, storeLiked) ∧
    unlikePostHandler storeLiked uidB "zzz" = (serverError, storeLiked) :=
  have h := C7_malformed_id storeLiked uidB "zzz" "hello" cidOne cidTwo (by decide)
  ⟨h.1,
   ((h.2.2.1 "dddddddddddddddddddddddd") (by decide)).1,
   h.2.2.2.2.1⟩

/-- Claim C3: liking a post twice in sequence with the same user stores
exactly one like for that user after the first call and rejects the second
call with 400 "post already liked" leaving the store unchanged; a user who
already appears in the likes is rejected outright; and the like handler
preserves the at-most-one-like-per-user invariant of every stored post. -/
theorem C3_like_invariant :
    (∀ store uid pid post, findById Post.id store.posts pid = .found post →
      (post.likes.filter fun l => l.user == uid) = [] →
      ∃ store',
        likePostHandler store uid pid =
          (⟨200, .likes (⟨uid⟩ :: post.likes)⟩, store') ∧
        (∃ post', findById Post.id store'.posts pid = .found post' ∧
          post'.likes = ⟨uid⟩ :: post.likes ∧
          (post'.likes.filter fun l => l.user == uid).length = 1) ∧
        likePostHandler store' uid pid =
          (⟨400, .msg "post already liked"⟩, store')) ∧
    (∀ store uid pid post, findById Post.id store.posts pid = .found post →
      (post.likes.filter fun l => l.user == uid) ≠ [] →
      likePostHandler store uid pid = (⟨400, .msg "post already liked"⟩, store)) ∧
    (∀ store uid pid, (∀ p ∈ store.posts, likesAtMostOnePerUser p) →
      ∀ p ∈ (likePostHandler store uid pid).2.posts, likesAtMostOnePerUser p) := by
  refine ⟨?_, ?_, ?_⟩
  · intro store uid pid post hp habs
    have hfound := findById_savePost store pid post
      { post with likes := ⟨uid⟩ :: post.likes } hp rfl
    refine ⟨savePost store { post with likes := ⟨uid⟩ :: post.likes },
      ?_, ⟨{ post with likes := ⟨uid⟩ :: post.likes }, hfound, rfl, ?_⟩, ?_⟩
    · simp [likePostHandler, hp, habs]
    · simp [List.filter_cons, habs]
    · have hlen : 0 < (({ post with likes := ⟨uid⟩ :: post.likes } : Post).likes.filter
          fun l => l.user == uid).length := by
        simp [List.filter_cons, habs]
      simp [likePostHandler, hfound, hlen]
  · intro store uid pid post hp hpresent
    have hlen : 0 < (post.likes.filter fun l => l.user == uid).length :=
      List.length_pos.mpr hpresent
    simp [likePostHandler, hp, hlen]
  · intro store uid pid hinv p hmem
    cases hfind : findById Post.id store.posts pid with
    | castError =>
      rw [show (likePostHandler store uid pid).2 = store by
        simp [likePostHandler, hfind]] at hmem
      exact hinv p hmem
    | notFound =>
      rw [show (likePostHandler store uid pid).2 = store by
        simp [likePostHandler, hfind]] at hmem
      exact hinv p hmem
    | found post =>
      by_cases hg : 0 < (post.likes.filter fun l => l.user == uid).length
      · rw [show (likePostHandler store uid pid).2 = store by
          simp [likePostHandler, hfind, hg]] at hmem
        exact hinv p hmem
      · rw [show (likePostHandler store uid pid).2 =
            savePost store { post with likes := ⟨uid⟩ :: post.likes } by
          simp [likePostHandler, hfind, hg]] at hmem
        have habs : (post.likes.filter fun l => l.user == uid).length = 0 := by omega
        simp only [savePost, List.mem_map] at hmem
        obtain ⟨q, hq, hfq⟩ := hmem
        by_cases hcase : (q.id == ({ post with likes := ⟨uid⟩ :: post.likes } : Post).id) = true
        · rw [if_pos hcase] at hfq
          subst hfq
          intro v
          by_cases hv : uid = v
          · subst hv
            have hnil : (post.likes.filter fun l => l.user == uid) = [] :=
              List.length_eq_zero.mp habs
            simp [List.filter_cons, hnil]
          · have hhv : ((⟨uid⟩ : Like).user == v) = false := by simp [hv]
            simp only [List.filter_cons, hhv]
            exact hinv post (findById_found_mem Post.id store.posts pid post hfind) v
        · rw [if_neg hcase] at hfq
          subst hfq
          exact hinv q hq

/-- Witness for C3: Carol likes `commentedPost` (no likes yet): the first call
stores exactly one like by Carol and the second call is rejected. -/
theorem C3_like_invariant_witness :
    ∃ store',
      likePostHandler storeCommented uidC pidA =
        (⟨200, .likes [⟨uidC⟩]⟩, store') ∧
      (∃ post', findById Post.id store'.posts pidA = .found post' ∧
        post'.likes = [⟨uidC⟩] ∧
        (post'.likes.filter fun l => l.user == uidC).length = 1) ∧
      likePostHandler store' uidC pidA =
        (⟨400, .msg "post already liked"⟩, store') :=
  C3_like_invariant.1 storeCommented uidC pidA commentedPost (by decide) (by decide)

/-- Claim C8: list-posts answers with the stored posts sorted by creation
timestamp descending (a permutation of the collection, newest first), and
both the like handler and the add-comment handler prepend the new entry,
keeping likes and comments most-recent-first. -/
theorem C8_ordering :
    (∀ store, ∃ sorted,
      getPostsHandler store = (⟨200, .posts sorted⟩, store) ∧
      sorted.Perm store.posts ∧
      sorted.Pairwise fun a b => b.date ≤ a.date) ∧
    (∀ store uid pid post, findById Post.id store.posts pid = .found post →
      (post.likes.filter fun l => l.user == uid) = [] →
      (likePostHandler store uid pid).1 = ⟨200, .likes (⟨uid⟩ :: post.likes)⟩) ∧
    (∀ store uid pid text fid user post,
      text.isEmpty = false →
      findById User.id store.users uid = .found user →
      findById Post.id store.posts pid = .found post →
      (addCommentHandler store uid pid text fid).1 =
        ⟨200, .comments (⟨fid, text, user.name, user.avatar, uid⟩ :: post.comments)⟩) := by
  refine ⟨fun store => ⟨_, rfl, List.mergeSort_perm _ _, ?_⟩, ?_, ?_⟩
  · have h := @List.sorted_mergeSort Post (fun a b => decide (b.date ≤ a.date))
      (fun a b c hab hbc => by
        simp only [decide_eq_true_eq] at hab hbc ⊢
        omega)
      (fun a b => by
        simp only [Bool.or_eq_true, decide_eq_true_eq]
        omega)
      store.posts
    exact h.imp fun hab => by simpa using hab
  · intro store uid pid post hp habs
    simp [likePostHandler, hp, habs]
  · intro store uid pid text fid user post ht hu hp
    simp [addCommentHandler, ht, hu, hp]

/-- Witness for C8: liking a post with no likes stores the singleton like
sequence; commenting a post with no comments stores the singleton comment
sequence. -/
theorem C8_ordering_witness :
    (likePostHandler storeCommented uidC pidA).1 = ⟨200, .likes [⟨uidC⟩]⟩ ∧
    (addCommentHandler storeLiked uidC pidA "yo" cidTwo).1 =
      ⟨200, .comments [⟨cidTwo, "yo", "Carol", "c.png", uidC⟩]⟩ :=
  ⟨C8_ordering.2.1 storeCommented uidC pidA commentedPost (by decide) (by decide),
   C8_ordering.2.2 storeLiked uidC pidA "yo" cidTwo ⟨uidC, "Carol", "c.png"⟩
     likedPost (by decide) (by decide) (by decide)⟩

/-- Claim C9: creating a post and immediately fetching it by the returned id
yields exactly the post the create call answered, with identical text and
author fields (author user id and the denormalized name/avatar snapshot). -/
theorem C9_create_then_get (store : Store) (uid text freshId : String)
    (now : Int) (user : User)
    (hu : findById User.id store.users uid = .found user)
    (htext : text.isEmpty = false)
    (hvalid : validObjectId freshId = true)
    (hfresh : ∀ q ∈ store.posts, q.id ≠ freshId) :
    ∃ p store',
      createPostHandler store uid text freshId now = (⟨200, .post p⟩, store') ∧
      getPostHandler store' p.id = (⟨200, .post p⟩, store') ∧
      p.text = text ∧ p.user = uid ∧ p.name = user.name ∧ p.avatar = user.avatar := by
  refine ⟨{ id := freshId, text := text, name := user.name, avatar := user.avatar,
            user := uid, likes := [], comments := [], date := now },
    { store with posts := store.posts ++
        [{ id := freshId, text := text, name := user.name, avatar := user.avatar,
           user := uid, likes := [], comments := [], date := now }] },
    ?_, ?_, rfl, rfl, rfl, rfl⟩
  · simp [createPostHandler, htext, hu]
  · have hnone : store.posts.find? (fun d => Post.id d == freshId) = none :=
      List.find?_eq_none.mpr fun q hq => by simp [hfresh q hq]
    simp [getPostHandler, findById, hvalid, List.find?_append, hnone]

/-- Witness for C9: Bob creates "hi" in a store with no posts and fetches it
back unchanged. -/
theorem C9_create_then_get_witness :
    ∃ p store',
      createPostHandler { posts := [], users := sampleUsers } uidB "hi"
          "eeeeeeeeeeeeeeeeeeeeeeee" 7 = (⟨200, .post p⟩, store') ∧
      getPostHandler store' p.id = (⟨200, .post p⟩, store') ∧
      p.text = "hi" ∧ p.user = uidB ∧ p.name = "Bob" ∧ p.avatar = "b.png" :=
  C9_create_then_get { posts := [], users := sampleUsers } uidB "hi"
    "eeeeeeeeeeeeeeeeeeeeeeee" 7 ⟨uidB, "Bob", "b.png"⟩
    (by decide) (by decide) (by decide) (by intro q hq; simp at hq)

end DevConnect
